import Mathlib

/-!
Verification of the `cli-chat` repository: a two-party chat server with a
presence registry, a durable message queue, a call handshake, and a
WebSocket signaling relay for media negotiation.

The chat server is embedded from `server/main.go`; the signaling relay is
embedded from the full signaling source (the `ws` handler, `getOrCreate`,
attach/flush, relay loop and deferred detach).  Go maps are modelled as
association lists whose operations keep at most one binding per key,
matching Go map semantics (`delete`, `m[k] = v`, `m[k]`).  The SQLite
`messages` table is modelled as a list of `Message` records together with
an autoincrement counter.
-/

set_option autoImplicit false

namespace CliChat

/-- Identifier of a live network connection (`net.Conn` / `websocket.Conn`). -/
abbrev ConnId := Nat

/-! ### Go map operations, modelled on association lists -/

/-- Go map lookup `m[k]`. -/
def alookup {β : Type} (l : List (String × β)) (k : String) : Option β :=
  match l with
  | [] => none
  | (k', v) :: rest => if k' = k then some v else alookup rest k

/-- Go map deletion `delete(m, k)`: removes every binding for `k`. -/
def aerase {β : Type} (l : List (String × β)) (k : String) : List (String × β) :=
  match l with
  | [] => []
  | (k', v) :: rest => if k' = k then aerase rest k else (k', v) :: aerase rest k

/-- Go map assignment `m[k] = v`: replaces any existing binding for `k`. -/
def ainsert {β : Type} (l : List (String × β)) (k : String) (v : β) :
    List (String × β) :=
  (k, v) :: aerase l k

/-- Number of bindings an association list holds for key `k`. -/
def countKey {β : Type} (l : List (String × β)) (k : String) : Nat :=
  match l with
  | [] => 0
  | (k', _) :: rest => (if k' = k then 1 else 0) + countKey rest k

/-! ### Chat server data model (`server/main.go`) -/

/-- `bilalUser` constant. -/
def bilalUser : String := "bilal"

/-- `zohaibUser` constant. -/
def zohaibUser : String := "zohaib"

/-- A registered client connection (`userConn`). -/
structure UserConn where
  name : String
  conn : ConnId
deriving DecidableEq, Repr

/-- A row of the `messages` table.  `ts` abstracts the SQL timestamp. -/
structure Message where
  id : Nat
  sender : String
  recipient : String
  text : String
  ts : Nat
  delivered : Bool
deriving DecidableEq, Repr

/-- The chat server state (`chatServer`): the messages table with its
autoincrement counter, the presence registry `clients`, the pending video
request table `videoReq` (callee to requester), and the set of connection
ids on which `Close()` has been called. -/
structure ChatServer where
  db : List Message
  nextId : Nat
  clients : List (String × UserConn)
  videoReq : List (String × String)
  closed : List ConnId
deriving DecidableEq, Repr

/-- `peerOf`: the fixed two-party peer map. -/
def peerOf (u : String) : String :=
  if u = bilalUser then zohaibUser else bilalUser

/-- `attach(username, conn, w)`: close any previous connection registered
for `username`, then store the new one. -/
def attach (s : ChatServer) (username : String) (c : ConnId) : ChatServer :=
  let closed' :=
    match alookup s.clients username with
    | some old => old.conn :: s.closed
    | none => s.closed
  { s with clients := ainsert s.clients username ⟨username, c⟩, closed := closed' }

/-- `detach(username)`: delete the registry entry and the pending video
request keyed by `username`.  The Go code deletes unconditionally; it does
not check which connection still holds the entry. -/
def detach (s : ChatServer) (username : String) : ChatServer :=
  { s with clients := aerase s.clients username,
           videoReq := aerase s.videoReq username }

/-- `UPDATE messages SET delivered=1 WHERE id IN (ids)`. -/
def markDelivered (db : List Message) (ids : List Nat) : List Message :=
  db.map (fun m => if m.id ∈ ids then { m with delivered := true } else m)

/-- Observable events of one `sendToPeer` call, in program order. -/
inductive SendEvent where
  /-- `INSERT INTO messages(... delivered=0)`. -/
  | persist (m : Message)
  /-- `dst := s.clients[peer]` under the mutex. -/
  | lookupPeer (peer : String) (found : Bool)
  /-- `writeLine(dst.w, line)`; the Go code discards the write error. -/
  | netWrite (c : ConnId) (line : String) (ok : Bool)
  /-- `UPDATE messages SET delivered=1 WHERE id=?`. -/
  | markDeliv (id : Nat)
deriving DecidableEq, Repr

/-- The formatted chat line `[ts] from: text` (ANSI color and clock
formatting abstracted). -/
def chatLine (now : Nat) (sndr txt : String) : String :=
  "[" ++ toString now ++ "] " ++ sndr ++ ": " ++ txt

/-- `sendToPeer(from, text)`.  `now` abstracts the wall clock and `wOk`
the outcome of the network write (which the Go code ignores).  Returns the
new state, the event trace in program order, and the error result
(`some "peer offline"` models `errors.New("peer offline")`). -/
def sendToPeer (s : ChatServer) (sndr txt : String) (now : Nat) (wOk : Bool) :
    ChatServer × List SendEvent × Option String :=
  let peer := peerOf sndr
  let m : Message := ⟨s.nextId, sndr, peer, txt, now, false⟩
  let s1 := { s with db := s.db ++ [m], nextId := s.nextId + 1 }
  match alookup s1.clients peer with
  | none =>
      (s1, [SendEvent.persist m, SendEvent.lookupPeer peer false],
       some "peer offline")
  | some dst =>
      ({ s1 with db := markDelivered s1.db [m.id] },
       [SendEvent.persist m, SendEvent.lookupPeer peer true,
        SendEvent.netWrite dst.conn (chatLine now sndr txt) wOk,
        SendEvent.markDeliv m.id],
       none)

/-! ### Backlog delivery (`deliverUndelivered`) -/

/-- Stable insertion of a message into a list sorted by ascending `ts`. -/
def insertByTs (m : Message) : List Message → List Message
  | [] => [m]
  | x :: xs => if m.ts ≤ x.ts then m :: x :: xs else x :: insertByTs m xs

/-- Stable sort by ascending `ts`, modelling SQL `ORDER BY ts ASC`. -/
def sortByTs (l : List Message) : List Message :=
  l.foldr insertByTs []

/-- `SELECT ... FROM messages WHERE recipient=? AND delivered=0 ORDER BY ts ASC`. -/
def fetchUndelivered (db : List Message) (recipient : String) : List Message :=
  sortByTs (db.filter (fun m => m.recipient = recipient ∧ m.delivered = false))

/-- A line written to the newly attached connection by the backlog flush. -/
inductive OutLine where
  /-- `[missed ts] sender: text`. -/
  | missed (ts : Nat) (sndr txt : String)
  /-- `You had n offline message(s).` -/
  | summary (n : Nat)
deriving DecidableEq, Repr

/-- Whether an output line is a "missed" line. -/
def OutLine.isMissed : OutLine → Bool
  | .missed _ _ _ => true
  | .summary _ => false

/-- `deliverUndelivered(toUser)`: query the undelivered backlog, look up the
attached connection (no-op when absent), write one missed line per row, and
when at least one row was written, write the summary line and mark all
fetched ids delivered in one batch. -/
def deliverUndelivered (s : ChatServer) (toUser : String) :
    ChatServer × List OutLine :=
  let rows := fetchUndelivered s.db toUser
  match alookup s.clients toUser with
  | none => (s, [])
  | some _ =>
      let outs := rows.map (fun m => OutLine.missed m.ts m.sender m.text)
      if 0 < rows.length then
        ({ s with db := markDelivered s.db (rows.map (fun m => m.id)) },
         outs ++ [OutLine.summary rows.length])
      else
        (s, outs)

/-! ### Call handshake (`handleVideoRequest`, `handleVideoAccept`,
`handleVideoDecline`, `generateSID`) -/

/-- A line written to one party's connection. -/
structure Notif where
  dest : ConnId
  text : String
deriving DecidableEq, Repr

/-- The session-id alphabet (`letters` in `generateSID`). -/
def letters : String :=
  "abcdefghijklmnopqrstuvwxyzABCDEFGHIJKLMNOPQRSTUVWXYZ0123456789"

/-- `letters[n]` for an index produced by `rand.Intn(len(letters))`. -/
def letterAt (n : Nat) : Char :=
  letters.toList.getD (n % 62) 'a'

/-- `generateSID()`: twelve characters drawn from `letters`, one per draw of
`rand.Intn(len(letters))`.  The random source is abstracted as the stream
`rng`; each draw is reduced modulo 62 to reflect `Intn`'s range contract. -/
def generateSID (rng : Nat → Nat) : String :=
  ⟨(List.range 12).map (fun i => letterAt (rng i))⟩

/-- `base := os.Getenv("VIDEO_BASE_URL"); if base == "" { base = ... }`. -/
def resolveBase (env : String) : String :=
  if env = "" then "http://127.0.0.1:5001" else env

/-- `senderURL`: the join address for the media sender role. -/
def senderURL (base sid : String) : String :=
  base ++ "/v/send?sid=" ++ sid

/-- `viewerURL`: the join address for the media viewer role. -/
def viewerURL (base sid : String) : String :=
  base ++ "/v/view?sid=" ++ sid

/-- `handleVideoRequest(requester)`: if the callee is offline, tell the
requester; otherwise record `videoReq[callee] = requester` (last request
wins) and prompt the callee. -/
def handleVideoRequest (s : ChatServer) (requester : String) :
    ChatServer × List Notif :=
  let callee := peerOf requester
  match alookup s.clients callee with
  | none =>
      match alookup s.clients requester with
      | some rc => (s, [⟨rc.conn, "Peer offline; cannot start video."⟩])
      | none => (s, [])
  | some cc =>
      ({ s with videoReq := ainsert s.videoReq callee requester },
       [⟨cc.conn, requester ++
          " requests your camera. Type /acceptvideo or /declinevideo"⟩])

/-- `handleVideoAccept(callee)`: read-and-clear `videoReq[callee]`; when a
request is pending, generate a session id, build the two role URLs and
notify whichever of the two parties is still connected. -/
def handleVideoAccept (s : ChatServer) (callee : String) (env : String)
    (rng : Nat → Nat) : ChatServer × List Notif :=
  match alookup s.videoReq callee with
  | none =>
      match alookup s.clients callee with
      | some c => (s, [⟨c.conn, "No pending video request."⟩])
      | none => (s, [])
  | some requester =>
      let s1 := { s with videoReq := aerase s.videoReq callee }
      let sid := generateSID rng
      let base := resolveBase env
      let n1 :=
        match alookup s1.clients callee with
        | some c =>
            [⟨c.conn, "Video approved. Open this URL to share your camera:"⟩,
             ⟨c.conn, senderURL base sid⟩]
        | none => []
      let n2 :=
        match alookup s1.clients requester with
        | some rc =>
            [⟨rc.conn, "Open this URL to view the camera:"⟩,
             ⟨rc.conn, viewerURL base sid⟩]
        | none => []
      (s1, n1 ++ n2)

/-! ### Signaling relay (the WebSocket `ws` handler) -/

/-- A signaling role. -/
inductive Role where
  | sender
  | viewer
deriving DecidableEq, Repr

/-- A relayed frame (`msg`): discriminant `type`, `sdp` for offer/answer,
`candidate` (an uninterpreted payload, modelled as a string) for ice. -/
structure SigMsg where
  type : String
  sdp : String
  cand : String
deriving DecidableEq, Repr

/-- Per-session relay state (`endpoint`): the live connection of each role
and the payloads queued while the counterpart is unattached. -/
structure Endpoint where
  sender : Option ConnId
  viewer : Option ConnId
  offer : Option String
  answer : Option String
  iceFromSender : List String
  iceFromViewer : List String
deriving DecidableEq, Repr

/-- A freshly created session record (`&endpoint{}`). -/
def emptyEndpoint : Endpoint := ⟨none, none, none, none, [], []⟩

/-- Result of attaching a connection to a session: the new session state,
the frames flushed to the attaching connection in write order, and the
previous occupant of the role slot (closed by the code) if any. -/
structure AttachResult where
  ep : Endpoint
  writes : List SigMsg
  closedOld : Option ConnId
deriving DecidableEq, Repr

/-- The attach block of `ws`: close and replace the role's prior
connection, flush the queued answer (sender) or offer (viewer) and the
ICE candidates of the matching direction in order, then clear those
queues. -/
def attachEp (role : Role) (c : ConnId) (ep : Endpoint) : AttachResult :=
  match role with
  | .sender =>
      let w1 := match ep.answer with
        | some a => [SigMsg.mk "answer" a ""]
        | none => []
      let w2 := ep.iceFromViewer.map (fun cd => SigMsg.mk "ice" "" cd)
      ⟨{ ep with sender := some c, answer := none, iceFromViewer := [] },
       w1 ++ w2, ep.sender⟩
  | .viewer =>
      let w1 := match ep.offer with
        | some o => [SigMsg.mk "offer" o ""]
        | none => []
      let w2 := ep.iceFromSender.map (fun cd => SigMsg.mk "ice" "" cd)
      ⟨{ ep with viewer := some c, offer := none, iceFromSender := [] },
       w1 ++ w2, ep.viewer⟩

/-- One iteration of the relay loop on a parsed frame: forward to the
opposite role when attached, queue when unattached and the direction is
valid, and otherwise fall through to the ignoring `default` branch. -/
def relayStep (role : Role) (m : SigMsg) (ep : Endpoint) :
    Endpoint × Option (ConnId × SigMsg) :=
  let dst := match role with
    | .sender => ep.viewer
    | .viewer => ep.sender
  if m.type = "offer" then
    if role = .sender then
      match dst with
      | some d => (ep, some (d, m))
      | none => ({ ep with offer := some m.sdp }, none)
    else (ep, none)
  else if m.type = "answer" then
    if role = .viewer then
      match dst with
      | some d => (ep, some (d, m))
      | none => ({ ep with answer := some m.sdp }, none)
    else (ep, none)
  else if m.type = "ice" then
    match dst with
    | some d => (ep, some (d, m))
    | none =>
        match role with
        | .sender => ({ ep with iceFromSender := ep.iceFromSender ++ [m.cand] }, none)
        | .viewer => ({ ep with iceFromViewer := ep.iceFromViewer ++ [m.cand] }, none)
  else (ep, none)

/-- The deferred cleanup of the relay goroutine: clear the role slot only
if it still holds exactly this connection; queues are untouched. -/
def detachEp (role : Role) (c : ConnId) (ep : Endpoint) : Endpoint :=
  match role with
  | .sender => if ep.sender = some c then { ep with sender := none } else ep
  | .viewer => if ep.viewer = some c then { ep with viewer := none } else ep

/-- One read of the relay loop.  `none` models a failed or unparseable
read (`ReadJSON` error), which returns from the loop and runs the deferred
detach; the `Bool` reports whether the connection terminated. -/
def relayRead (role : Role) (c : ConnId) (input : Option SigMsg)
    (ep : Endpoint) : Endpoint × Option (ConnId × SigMsg) × Bool :=
  match input with
  | none => (detachEp role c ep, none, true)
  | some m =>
      let r := relayStep role m ep
      (r.1, r.2, false)

/-- The attach handshake frame (`hello`). -/
structure Hello where
  role : String
  sid : String
deriving DecidableEq, Repr

/-- The handshake validation of `ws`: role must be `sender` or `viewer`
and the sid non-empty. -/
def validHello (hi : Hello) : Bool :=
  (hi.role = "sender" || hi.role = "viewer") && hi.sid ≠ ""

/-- The signaling server state: `sid -> endpoint`. -/
structure SigServer where
  sessions : List (String × Endpoint)
deriving DecidableEq, Repr

/-- `getOrCreate(sid)`: the session record for `sid`, lazily created. -/
def getOrCreate (s : SigServer) (sid : String) : Endpoint × SigServer :=
  match alookup s.sessions sid with
  | some ep => (ep, s)
  | none => (emptyEndpoint, ⟨ainsert s.sessions sid emptyEndpoint⟩)

/-- Outcome of the `ws` handshake: `rejected` models `c.Close(); return`
before any session state is touched. -/
inductive WsHandshake where
  | rejected
  | attached (role : Role) (sid : String) (writes : List SigMsg)
deriving DecidableEq, Repr

/-- The handshake phase of `ws`: read the first frame (`none` models an
unparseable or failed read), validate it, and only then look up or create
the session and attach. -/
def wsAttach (s : SigServer) (frame : Option Hello) (c : ConnId) :
    SigServer × WsHandshake :=
  match frame with
  | none => (s, .rejected)
  | some hi =>
      if validHello hi then
        let role := if hi.role = "sender" then Role.sender else Role.viewer
        let pr := getOrCreate s hi.sid
        let r := attachEp role c pr.1
        (⟨ainsert pr.2.sessions hi.sid r.ep⟩, .attached role hi.sid r.writes)
      else (s, .rejected)

/-! ### Association-list lemmas -/

theorem alookup_ainsert_self {β : Type} (l : List (String × β)) (k : String)
    (v : β) : alookup (ainsert l k v) k = some v := by
  simp [ainsert, alookup]

theorem countKey_aerase_self {β : Type} (l : List (String × β)) (k : String) :
    countKey (aerase l k) k = 0 := by
  induction l with
  | nil => rfl
  | cons p rest ih =>
      obtain ⟨k', v⟩ := p
      by_cases h : k' = k <;> simp [aerase, countKey, h, ih]

theorem countKey_aerase_le {β : Type} (l : List (String × β)) (k u : String) :
    countKey (aerase l k) u ≤ countKey l u := by
  induction l with
  | nil => exact Nat.le_refl _
  | cons p rest ih =>
      obtain ⟨k', v⟩ := p
      by_cases h : k' = k
      · rw [show aerase ((k', v) :: rest) k = aerase rest k by simp [aerase, h]]
        calc countKey (aerase rest k) u ≤ countKey rest u := ih
          _ ≤ (if k' = u then 1 else 0) + countKey rest u := Nat.le_add_left _ _
          _ = countKey ((k', v) :: rest) u := rfl
      · rw [show aerase ((k', v) :: rest) k = (k', v) :: aerase rest k by
          simp [aerase, h]]
        show (if k' = u then 1 else 0) + countKey (aerase rest k) u
          ≤ (if k' = u then 1 else 0) + countKey rest u
        exact Nat.add_le_add_left ih _

theorem countKey_ainsert_self {β : Type} (l : List (String × β)) (k : String)
    (v : β) : countKey (ainsert l k v) k = 1 := by
  show (if k = k then 1 else 0) + countKey (aerase l k) k = 1
  rw [if_pos rfl, countKey_aerase_self]

theorem countKey_ainsert_ne {β : Type} (l : List (String × β)) (k u : String)
    (v : β) (h : ¬k = u) :
    countKey (ainsert l k v) u = countKey (aerase l k) u := by
  show (if k = u then 1 else 0) + countKey (aerase l k) u
    = countKey (aerase l k) u
  rw [if_neg h, Nat.zero_add]

/-! ### Sorting and backlog lemmas -/

theorem mem_insertByTs (m a : Message) (l : List Message) :
    a ∈ insertByTs m l ↔ a = m ∨ a ∈ l := by
  induction l with
  | nil => simp [insertByTs]
  | cons x xs ih =>
      by_cases h : m.ts ≤ x.ts
      · simp [insertByTs, h]
      · simp only [insertByTs, if_neg h, List.mem_cons, ih]
        tauto

theorem sorted_insertByTs (m : Message) (l : List Message)
    (h : List.Pairwise (fun a b => a.ts ≤ b.ts) l) :
    List.Pairwise (fun a b => a.ts ≤ b.ts) (insertByTs m l) := by
  induction l with
  | nil => simp [insertByTs]
  | cons x xs ih =>
      rcases List.pairwise_cons.1 h with ⟨hx, hxs⟩
      by_cases hle : m.ts ≤ x.ts
      · rw [show insertByTs m (x :: xs) = m :: x :: xs by simp [insertByTs, hle]]
        refine List.pairwise_cons.2 ⟨?_, h⟩
        intro b hb
        rcases List.mem_cons.1 hb with rfl | hb
        · exact hle
        · exact Nat.le_trans hle (hx b hb)
      · rw [show insertByTs m (x :: xs) = x :: insertByTs m xs by
          simp [insertByTs, hle]]
        refine List.pairwise_cons.2 ⟨?_, ih hxs⟩
        intro b hb
        rcases (mem_insertByTs m b xs).1 hb with rfl | hb
        · exact Nat.le_of_lt (Nat.lt_of_not_le hle)
        · exact hx b hb

theorem sorted_sortByTs (l : List Message) :
    List.Pairwise (fun a b => a.ts ≤ b.ts) (sortByTs l) := by
  induction l with
  | nil => simp [sortByTs]
  | cons x xs ih => exact sorted_insertByTs x (sortByTs xs) ih

theorem mem_sortByTs (a : Message) (l : List Message) :
    a ∈ sortByTs l ↔ a ∈ l := by
  induction l with
  | nil => simp [sortByTs]
  | cons x xs ih =>
      rw [show sortByTs (x :: xs) = insertByTs x (sortByTs xs) from rfl,
        mem_insertByTs]
      simp [ih]

theorem mem_fetchUndelivered (db : List Message) (r : String) (a : Message) :
    a ∈ fetchUndelivered db r
      ↔ a ∈ db ∧ a.recipient = r ∧ a.delivered = false := by
  rw [fetchUndelivered, mem_sortByTs, List.mem_filter]
  simp

theorem fetchUndelivered_markDelivered (db : List Message) (r : String) :
    fetchUndelivered
      (markDelivered db ((fetchUndelivered db r).map (fun m => m.id))) r
      = [] := by
  rw [List.eq_nil_iff_forall_not_mem]
  intro x hx
  rw [mem_fetchUndelivered] at hx
  rcases hx with ⟨hmem, hrec, hdel⟩
  rw [markDelivered] at hmem
  rcases List.mem_map.1 hmem with ⟨y, hy, hxy⟩
  by_cases hid : y.id ∈ (fetchUndelivered db r).map (fun m => m.id)
  · rw [if_pos hid] at hxy
    rw [← hxy] at hdel
    simp at hdel
  · rw [if_neg hid] at hxy
    subst hxy
    exact hid (List.mem_map.2
      ⟨y, (mem_fetchUndelivered db r y).2 ⟨hy, hrec, hdel⟩, rfl⟩)

/-! ### Claim C2: queuing while the destination role is unattached -/

/-- C2: while the destination role is unattached, an offer, answer or ice
frame sent in its valid direction is queued, not dropped: offer and answer
overwrite the queued value of that type (the slot holds only the latest
value), and ICE candidates are appended to the direction-specific list in
arrival order. -/
theorem relay_queues_when_dest_unattached (ep : Endpoint)
    (sdp sdp2 cd cd2 : String) :
    (ep.viewer = none →
      relayStep .sender ⟨"offer", sdp, cd⟩ ep
        = ({ ep with offer := some sdp }, none)) ∧
    (ep.sender = none →
      relayStep .viewer ⟨"answer", sdp, cd⟩ ep
        = ({ ep with answer := some sdp }, none)) ∧
    (ep.viewer = none →
      relayStep .sender ⟨"ice", sdp, cd⟩ ep
        = ({ ep with iceFromSender := ep.iceFromSender ++ [cd] }, none)) ∧
    (ep.sender = none →
      relayStep .viewer ⟨"ice", sdp, cd⟩ ep
        = ({ ep with iceFromViewer := ep.iceFromViewer ++ [cd] }, none)) ∧
    (ep.viewer = none →
      (relayStep .sender ⟨"offer", sdp2, cd2⟩
        (relayStep .sender ⟨"offer", sdp, cd⟩ ep).1).1.offer = some sdp2) ∧
    (ep.viewer = none →
      (relayStep .sender ⟨"ice", sdp2, cd2⟩
        (relayStep .sender ⟨"ice", sdp, cd⟩ ep).1).1.iceFromSender
        = ep.iceFromSender ++ [cd, cd2]) := by
  refine ⟨?_, ?_, ?_, ?_, ?_, ?_⟩ <;> intro h <;>
    simp [relayStep, h]

/-- Witness for C2 at the empty session record. -/
theorem relay_queues_when_dest_unattached_witness :
    (relayStep .sender ⟨"offer", "s1", "c1"⟩ emptyEndpoint
      = ({ emptyEndpoint with offer := some "s1" }, none)) ∧
    (relayStep .viewer ⟨"answer", "s1", "c1"⟩ emptyEndpoint
      = ({ emptyEndpoint with answer := some "s1" }, none)) ∧
    (relayStep .sender ⟨"ice", "s1", "c1"⟩ emptyEndpoint
      = ({ emptyEndpoint with iceFromSender := ["c1"] }, none)) ∧
    (relayStep .viewer ⟨"ice", "s1", "c1"⟩ emptyEndpoint
      = ({ emptyEndpoint with iceFromViewer := ["c1"] }, none)) ∧
    ((relayStep .sender ⟨"offer", "s2", "c2"⟩
        (relayStep .sender ⟨"offer", "s1", "c1"⟩ emptyEndpoint).1).1.offer
      = some "s2") ∧
    ((relayStep .sender ⟨"ice", "s2", "c2"⟩
        (relayStep .sender ⟨"ice", "s1", "c1"⟩ emptyEndpoint).1).1.iceFromSender
      = ["c1", "c2"]) := by
  have h := relay_queues_when_dest_unattached emptyEndpoint "s1" "s2" "c1" "c2"
  exact ⟨h.1 rfl, h.2.1 rfl, h.2.2.1 rfl, h.2.2.2.1 rfl,
         h.2.2.2.2.1 rfl, h.2.2.2.2.2 rfl⟩

/-! ### Claim C5: attach flushes the queued payloads for the role -/

/-- C5: attaching a role flushes exactly the payloads queued for it: a
queued offer goes only to an attaching viewer, a queued answer only to an
attaching sender, the ICE candidates of the matching direction follow in
original order, the flushed queues are cleared, and a repeated attach of
the same role with nothing newly queued receives nothing. -/
theorem attach_flushes_queued_payloads (ep : Endpoint) (c c2 : ConnId) :
    ((attachEp .viewer c ep).writes
      = (match ep.offer with
         | some o => [SigMsg.mk "offer" o ""]
         | none => [])
        ++ ep.iceFromSender.map (fun cd => SigMsg.mk "ice" "" cd)) ∧
    ((attachEp .viewer c ep).ep
      = { ep with viewer := some c, offer := none, iceFromSender := [] }) ∧
    ((attachEp .sender c ep).writes
      = (match ep.answer with
         | some a => [SigMsg.mk "answer" a ""]
         | none => [])
        ++ ep.iceFromViewer.map (fun cd => SigMsg.mk "ice" "" cd)) ∧
    ((attachEp .sender c ep).ep
      = { ep with sender := some c, answer := none, iceFromViewer := [] }) ∧
    (∀ w ∈ (attachEp .sender c ep).writes, w.type ≠ "offer") ∧
    (∀ w ∈ (attachEp .viewer c ep).writes, w.type ≠ "answer") ∧
    ((attachEp .viewer c2 (attachEp .viewer c ep).ep).writes = []) ∧
    ((attachEp .sender c2 (attachEp .sender c ep).ep).writes = []) := by
  refine ⟨rfl, rfl, rfl, rfl, ?_, ?_, ?_, ?_⟩
  · intro w hw
    simp only [attachEp, List.mem_append, List.mem_map] at hw
    rcases hw with hw | hw
    · cases h : ep.answer <;> simp [h] at hw <;> simp [hw]
    · rcases hw with ⟨cd, _, rfl⟩; simp
  · intro w hw
    simp only [attachEp, List.mem_append, List.mem_map] at hw
    rcases hw with hw | hw
    · cases h : ep.offer <;> simp [h] at hw <;> simp [hw]
    · rcases hw with ⟨cd, _, rfl⟩; simp
  · simp [attachEp]
  · simp [attachEp]

/-- Witness for C5: an endpoint holding a queued offer, a queued answer
and one ICE candidate in each direction. -/
theorem attach_flushes_queued_payloads_witness :
    ((attachEp .viewer 7 ⟨none, none, some "o", some "a", ["i1"], ["i2"]⟩).writes
      = [SigMsg.mk "offer" "o" "", SigMsg.mk "ice" "" "i1"]) ∧
    ((attachEp .sender 8 ⟨none, none, some "o", some "a", ["i1"], ["i2"]⟩).writes
      = [SigMsg.mk "answer" "a" "", SigMsg.mk "ice" "" "i2"]) ∧
    ((attachEp .viewer 9
        (attachEp .viewer 7 ⟨none, none, some "o", some "a", ["i1"], ["i2"]⟩).ep).writes
      = []) := by
  have h := attach_flushes_queued_payloads
    ⟨none, none, some "o", some "a", ["i1"], ["i2"]⟩ 7 9
  have h8 := attach_flushes_queued_payloads
    ⟨none, none, some "o", some "a", ["i1"], ["i2"]⟩ 8 9
  exact ⟨h.1, h8.2.2.1, h.2.2.2.2.2.2.1⟩

/-! ### Claim C6: invalid directions and unknown discriminants -/

/-- C6: a frame whose discriminant is not offer, answer or ice, an offer
arriving from the viewer role, or an answer arriving from the sender role
is silently discarded: nothing is forwarded, nothing is queued, and the
session state is unchanged. -/
theorem relay_discards_invalid (ep : Endpoint) (m : SigMsg) :
    (m.type ≠ "offer" → m.type ≠ "answer" → m.type ≠ "ice" →
      ∀ role, relayStep role m ep = (ep, none)) ∧
    (m.type = "offer" → relayStep .viewer m ep = (ep, none)) ∧
    (m.type = "answer" → relayStep .sender m ep = (ep, none)) := by
  refine ⟨?_, ?_, ?_⟩
  · intro h1 h2 h3 role
    simp [relayStep, h1, h2, h3]
  · intro h
    simp [relayStep, h]
  · intro h
    have : m.type ≠ "offer" := by rw [h]; decide
    simp [relayStep, h, this]

/-- Witness for C6: an unknown discriminant, a viewer offer and a sender
answer against a fully loaded session record. -/
theorem relay_discards_invalid_witness :
    (relayStep .sender ⟨"bye", "s", "c"⟩ ⟨some 1, some 2, none, none, [], []⟩
      = (⟨some 1, some 2, none, none, [], []⟩, none)) ∧
    (relayStep .viewer ⟨"offer", "s", "c"⟩ ⟨some 1, some 2, none, none, [], []⟩
      = (⟨some 1, some 2, none, none, [], []⟩, none)) ∧
    (relayStep .sender ⟨"answer", "s", "c"⟩ ⟨some 1, some 2, none, none, [], []⟩
      = (⟨some 1, some 2, none, none, [], []⟩, none)) := by
  have h := relay_discards_invalid ⟨some 1, some 2, none, none, [], []⟩
  exact ⟨(h ⟨"bye", "s", "c"⟩).1 (by decide) (by decide) (by decide) .sender,
         (h ⟨"offer", "s", "c"⟩).2.1 rfl,
         (h ⟨"answer", "s", "c"⟩).2.2 rfl⟩

/-! ### Claim C7: malformed frames terminate the connection cleanly -/

/-- C7: an unparseable handshake frame, or one with a role outside
sender/viewer or an empty sid, terminates the connection before any
session record is looked up or created; an unparseable frame during relay
terminates the connection, clearing the role slot only if it still holds
that connection and leaving every queue and the opposite role untouched. -/
theorem malformed_frame_terminates (s : SigServer) (c : ConnId) (hi : Hello)
    (role : Role) (ep : Endpoint) :
    (wsAttach s none c = (s, .rejected)) ∧
    (validHello hi = false → wsAttach s (some hi) c = (s, .rejected)) ∧
    (relayRead role c none ep = (detachEp role c ep, none, true)) ∧
    ((detachEp role c ep).offer = ep.offer) ∧
    ((detachEp role c ep).answer = ep.answer) ∧
    ((detachEp role c ep).iceFromSender = ep.iceFromSender) ∧
    ((detachEp role c ep).iceFromViewer = ep.iceFromViewer) ∧
    ((detachEp .sender c ep).viewer = ep.viewer) ∧
    ((detachEp .viewer c ep).sender = ep.sender) ∧
    (ep.sender = some c → (detachEp .sender c ep).sender = none) ∧
    (ep.sender ≠ some c → detachEp .sender c ep = ep) ∧
    (ep.viewer = some c → (detachEp .viewer c ep).viewer = none) ∧
    (ep.viewer ≠ some c → detachEp .viewer c ep = ep) := by
  refine ⟨rfl, ?_, rfl, ?_, ?_, ?_, ?_, ?_, ?_, ?_, ?_, ?_, ?_⟩
  · intro h
    simp [wsAttach, h]
  · cases role <;> simp only [detachEp] <;> split <;> rfl
  · cases role <;> simp only [detachEp] <;> split <;> rfl
  · cases role <;> simp only [detachEp] <;> split <;> rfl
  · cases role <;> simp only [detachEp] <;> split <;> rfl
  · simp only [detachEp] <;> split <;> rfl
  · simp only [detachEp] <;> split <;> rfl
  · intro h
    simp [detachEp, h]
  · intro h
    simp [detachEp, h]
  · intro h
    simp [detachEp, h]
  · intro h
    simp [detachEp, h]

/-- Witness for C7: a hello with a bad role is rejected with no session
created, and a failed relay read detaches only the matching slot. -/
theorem malformed_frame_terminates_witness :
    (wsAttach ⟨[]⟩ (some ⟨"watcher", "sid1"⟩) 5 = (⟨[]⟩, .rejected)) ∧
    (relayRead .sender 5 none ⟨some 5, some 6, some "o", none, ["i"], []⟩
      = (⟨none, some 6, some "o", none, ["i"], []⟩, none, true)) ∧
    (detachEp .sender 9 ⟨some 5, some 6, some "o", none, ["i"], []⟩
      = ⟨some 5, some 6, some "o", none, ["i"], []⟩) := by
  have h1 := malformed_frame_terminates ⟨[]⟩ 5 ⟨"watcher", "sid1"⟩ .sender
    ⟨some 5, some 6, some "o", none, ["i"], []⟩
  have h2 := malformed_frame_terminates ⟨[]⟩ 9 ⟨"watcher", "sid1"⟩ .sender
    ⟨some 5, some 6, some "o", none, ["i"], []⟩
  refine ⟨h1.2.1 (by decide), ?_, h2.2.2.2.2.2.2.2.2.2.2.1 (by decide)⟩
  · have h3 := h1.2.2.1
    have h4 := h1.2.2.2.2.2.2.2.2.2.1 rfl
    rw [h3]
    simp [detachEp]

/-! ### Claim C9: register closes the old connection, one entry per identity -/

/-- C9: registering a connection for an identity that already has a live
connection closes the old connection and stores the new one, leaving
exactly one registry entry for that identity; under the one-entry-per-key
map invariant the registry never holds more than one connection per
identity. -/
theorem register_single_live_connection (s : ChatServer) (username : String)
    (c : ConnId) :
    (alookup (attach s username c).clients username = some ⟨username, c⟩) ∧
    (∀ old, alookup s.clients username = some old →
      old.conn ∈ (attach s username c).closed) ∧
    (countKey (attach s username c).clients username = 1) ∧
    ((∀ u, countKey s.clients u ≤ 1) →
      ∀ u, countKey (attach s username c).clients u ≤ 1) := by
  refine ⟨?_, ?_, ?_, ?_⟩
  · exact alookup_ainsert_self s.clients username ⟨username, c⟩
  · intro old h
    simp [attach, h]
  · exact countKey_ainsert_self s.clients username ⟨username, c⟩
  · intro hinv u
    by_cases hu : username = u
    · subst hu
      rw [show (attach s username c).clients
          = ainsert s.clients username ⟨username, c⟩ from rfl,
        countKey_ainsert_self]
    · calc countKey (attach s username c).clients u
          = countKey (aerase s.clients username) u :=
            countKey_ainsert_ne s.clients username u ⟨username, c⟩ hu
        _ ≤ countKey s.clients u := countKey_aerase_le s.clients username u
        _ ≤ 1 := hinv u

/-- Witness for C9: zohaib's stale connection 3 is closed when connection
4 registers; the registry keeps a single entry for zohaib. -/
theorem register_single_live_connection_witness :
    (alookup (attach ⟨[], 0, [("zohaib", ⟨"zohaib", 3⟩)], [], []⟩ "zohaib"
        4).clients "zohaib" = some ⟨"zohaib", 4⟩) ∧
    ((3 : ConnId) ∈ (attach ⟨[], 0, [("zohaib", ⟨"zohaib", 3⟩)], [], []⟩
        "zohaib" 4).closed) ∧
    (countKey (attach ⟨[], 0, [("zohaib", ⟨"zohaib", 3⟩)], [], []⟩ "zohaib"
        4).clients "zohaib" = 1) ∧
    (∀ u, countKey (attach ⟨[], 0, [("zohaib", ⟨"zohaib", 3⟩)], [], []⟩
        "zohaib" 4).clients u ≤ 1) := by
  have h := register_single_live_connection
    ⟨[], 0, [("zohaib", ⟨"zohaib", 3⟩)], [], []⟩ "zohaib" 4
  exact ⟨h.1, h.2.1 ⟨"zohaib", 3⟩ (by decide), h.2.2.1,
    h.2.2.2 (by
      intro u
      by_cases hu : ("zohaib" : String) = u <;> simp [countKey, hu])⟩

/-! ### Claim C1: unregister and session takeover -/

/-- C1 (code bug): the claim requires `detach` to remove the registry
entry only when it is still held by the invoking connection.  The Go code
deletes the entry unconditionally: in the state reached after connection 1
was evicted by a takeover from connection 2 (`closed = [1]`, entry held by
connection 2), the `detach` run by connection 1's handler still removes
connection 2's entry.  The second half of the claim — the pending call
request keyed by this callee is cleared — does hold, as the third conjunct
shows on a state where the entry is held by the invoking connection. -/
theorem detach_removes_replaced_entry :
    (alookup (detach ⟨[], 0, [("bilal", ⟨"bilal", 2⟩)], [("bilal", "zohaib")],
        [1]⟩ "bilal").clients "bilal" = none) ∧
    (alookup (detach ⟨[], 0, [("bilal", ⟨"bilal", 2⟩)], [("bilal", "zohaib")],
        [1]⟩ "bilal").videoReq "bilal" = none) ∧
    (alookup (detach ⟨[], 0, [("bilal", ⟨"bilal", 7⟩)], [("bilal", "zohaib")],
        []⟩ "bilal").videoReq "bilal" = none) := by
  refine ⟨?_, ?_, ?_⟩ <;> decide

/-! ### Claim C4: persistence precedes the delivery attempt -/

/-- C4: every send persists the message with `delivered = false` as its
first action; when the peer lookup then finds no connection, the sender is
told "peer offline", the persisted message stays queued undelivered, and
nothing else in the state changes. -/
theorem send_persists_before_delivery (s : ChatServer) (sndr txt : String)
    (now : Nat) (wOk : Bool) :
    ((sendToPeer s sndr txt now wOk).2.1.head?
      = some (.persist ⟨s.nextId, sndr, peerOf sndr, txt, now, false⟩)) ∧
    (alookup s.clients (peerOf sndr) = none →
      sendToPeer s sndr txt now wOk
        = ({ s with
              db := s.db ++ [⟨s.nextId, sndr, peerOf sndr, txt, now, false⟩],
              nextId := s.nextId + 1 },
           [.persist ⟨s.nextId, sndr, peerOf sndr, txt, now, false⟩,
            .lookupPeer (peerOf sndr) false],
           some "peer offline")) := by
  constructor
  · cases h : alookup s.clients (peerOf sndr) <;> simp [sendToPeer, h]
  · intro h
    simp [sendToPeer, h]

/-- Witness for C4: zohaib sends while bilal is offline; the message is
stored undelivered and the sender gets the offline report. -/
theorem send_persists_before_delivery_witness :
    sendToPeer ⟨[], 5, [("zohaib", ⟨"zohaib", 3⟩)], [], []⟩ "zohaib" "hey" 40
        true
      = (⟨[⟨5, "zohaib", "bilal", "hey", 40, false⟩], 6,
          [("zohaib", ⟨"zohaib", 3⟩)], [], []⟩,
         [.persist ⟨5, "zohaib", "bilal", "hey", 40, false⟩,
          .lookupPeer "bilal" false],
         some "peer offline") := by
  have h := (send_persists_before_delivery
    ⟨[], 5, [("zohaib", ⟨"zohaib", 3⟩)], [], []⟩ "zohaib" "hey" 40 true).2
    (by decide)
  rw [h]
  rfl

/-! ### Claim C10: the delivered mark ignores the write outcome -/

/-- C10: when the peer's connection is present, `sendToPeer` marks the
persisted message delivered after the connection write is attempted,
whether or not that write succeeded (`wOk` is arbitrary and the trace
shows the write preceding the mark); the message is flagged delivered in
the table and no later backlog flush for any recipient fetches it again. -/
theorem send_marks_delivered_even_on_failed_write (s : ChatServer)
    (sndr txt : String) (now : Nat) (wOk : Bool) (dst : UserConn)
    (hdst : alookup s.clients (peerOf sndr) = some dst)
    (hids : ∀ x ∈ s.db, x.id < s.nextId) :
    ((sendToPeer s sndr txt now wOk).1.db
      = markDelivered
          (s.db ++ [⟨s.nextId, sndr, peerOf sndr, txt, now, false⟩])
          [s.nextId]) ∧
    ((⟨s.nextId, sndr, peerOf sndr, txt, now, true⟩ : Message)
      ∈ (sendToPeer s sndr txt now wOk).1.db) ∧
    ((sendToPeer s sndr txt now wOk).2.1
      = [.persist ⟨s.nextId, sndr, peerOf sndr, txt, now, false⟩,
         .lookupPeer (peerOf sndr) true,
         .netWrite dst.conn (chatLine now sndr txt) wOk,
         .markDeliv s.nextId]) ∧
    (∀ u x, x ∈ fetchUndelivered (sendToPeer s sndr txt now wOk).1.db u →
      x.id ≠ s.nextId) := by
  have hdb : (sendToPeer s sndr txt now wOk).1.db
      = markDelivered
          (s.db ++ [⟨s.nextId, sndr, peerOf sndr, txt, now, false⟩])
          [s.nextId] := by
    simp [sendToPeer, hdst]
  refine ⟨hdb, ?_, ?_, ?_⟩
  · rw [hdb, markDelivered]
    refine List.mem_map.2 ⟨⟨s.nextId, sndr, peerOf sndr, txt, now, false⟩,
      by simp, ?_⟩
    simp
  · simp [sendToPeer, hdst]
  · intro u x hx
    rw [mem_fetchUndelivered, hdb] at hx
    rcases hx with ⟨hmem, _, hdel⟩
    rw [markDelivered] at hmem
    rcases List.mem_map.1 hmem with ⟨y, hy, hxy⟩
    rcases List.mem_append.1 hy with hy' | hy'
    · have hlt := hids y hy'
      rw [if_neg (by simp; omega)] at hxy
      subst hxy
      omega
    · have : y = ⟨s.nextId, sndr, peerOf sndr, txt, now, false⟩ := by
        simpa using hy'
      subst this
      rw [if_pos (by simp)] at hxy
      rw [← hxy] at hdel
      simp at hdel

/-- Witness for C10: the write to bilal's connection fails (`wOk = false`)
yet the message is stored delivered and a backlog fetch returns nothing. -/
theorem send_marks_delivered_even_on_failed_write_witness :
    ((⟨2, "zohaib", "bilal", "hey", 40, true⟩ : Message)
      ∈ (sendToPeer ⟨[⟨0, "zohaib", "bilal", "old", 1, true⟩], 2,
          [("bilal", ⟨"bilal", 6⟩), ("zohaib", ⟨"zohaib", 3⟩)], [], []⟩
          "zohaib" "hey" 40 false).1.db) ∧
    (fetchUndelivered (sendToPeer ⟨[⟨0, "zohaib", "bilal", "old", 1, true⟩],
        2, [("bilal", ⟨"bilal", 6⟩), ("zohaib", ⟨"zohaib", 3⟩)], [], []⟩
        "zohaib" "hey" 40 false).1.db "bilal" = []) := by
  have h := send_marks_delivered_even_on_failed_write
    ⟨[⟨0, "zohaib", "bilal", "old", 1, true⟩], 2,
      [("bilal", ⟨"bilal", 6⟩), ("zohaib", ⟨"zohaib", 3⟩)], [], []⟩
    "zohaib" "hey" 40 false ⟨"bilal", 6⟩ (by decide)
    (by intro x hx; simp at hx; subst hx; decide)
  refine ⟨h.2.1, ?_⟩
  rw [h.1]
  decide

/-! ### Claim C3: backlog delivery on attach -/

/-- C3: with a connection attached, the backlog flush fetches exactly the
undelivered messages addressed to the recipient, in ascending timestamp
order, writes one missed line per fetched message, marks all fetched
messages delivered in one batch, and a repeated flush delivers nothing;
with no connection attached it changes nothing. -/
theorem backlog_flush_delivers_once (s : ChatServer) (toUser : String) :
    (alookup s.clients toUser = none →
      deliverUndelivered s toUser = (s, [])) ∧
    (alookup s.clients toUser ≠ none →
      (List.Pairwise (fun a b => a.ts ≤ b.ts) (fetchUndelivered s.db toUser)) ∧
      (∀ m, m ∈ fetchUndelivered s.db toUser ↔
        m ∈ s.db ∧ m.recipient = toUser ∧ m.delivered = false) ∧
      ((deliverUndelivered s toUser).2.filter OutLine.isMissed
        = (fetchUndelivered s.db toUser).map
            (fun m => OutLine.missed m.ts m.sender m.text)) ∧
      ((deliverUndelivered s toUser).1.db
        = if 0 < (fetchUndelivered s.db toUser).length
          then markDelivered s.db
            ((fetchUndelivered s.db toUser).map (fun m => m.id))
          else s.db) ∧
      ((deliverUndelivered s toUser).1.clients = s.clients) ∧
      (deliverUndelivered (deliverUndelivered s toUser).1 toUser
        = ((deliverUndelivered s toUser).1, []))) := by
  constructor
  · intro h
    simp [deliverUndelivered, h]
  · intro h
    rcases hlk : alookup s.clients toUser with _ | uc
    · exact absurd hlk h
    refine ⟨sorted_sortByTs _, fun m => mem_fetchUndelivered s.db toUser m,
      ?_, ?_, ?_, ?_⟩
    · rcases Nat.eq_zero_or_pos (fetchUndelivered s.db toUser).length with
        hz | hp
      · rw [List.length_eq_zero] at hz
        simp [deliverUndelivered, hlk, hz]
      · simp only [deliverUndelivered, hlk, if_pos hp]
        rw [List.filter_append, List.filter_map]
        simp [Function.comp_def, OutLine.isMissed]
    · rcases Nat.eq_zero_or_pos (fetchUndelivered s.db toUser).length with
        hz | hp
      · rw [List.length_eq_zero] at hz
        simp [deliverUndelivered, hlk, hz]
      · simp [deliverUndelivered, hlk, hp, Nat.not_eq_zero_of_lt hp]
    · rcases Nat.eq_zero_or_pos (fetchUndelivered s.db toUser).length with
        hz | hp
      · rw [List.length_eq_zero] at hz
        simp [deliverUndelivered, hlk, hz]
      · simp [deliverUndelivered, hlk, hp]
    · rcases Nat.eq_zero_or_pos (fetchUndelivered s.db toUser).length with
        hz | hp
      · rw [List.length_eq_zero] at hz
        simp [deliverUndelivered, hlk, hz]
      · have h1 : (deliverUndelivered s toUser).1
            = { s with db := markDelivered s.db ((fetchUndelivered s.db toUser).map (fun m => m.id)) } := by
          simp [deliverUndelivered, hlk, hp]
        rw [h1]
        have h2 : fetchUndelivered (markDelivered s.db
            ((fetchUndelivered s.db toUser).map (fun m => m.id))) toUser
            = [] := fetchUndelivered_markDelivered s.db toUser
        simp [deliverUndelivered, hlk, h2]

/-- Witness for C3: two messages queued for bilal out of order are flushed
as two missed lines in timestamp order plus the summary, and a second
flush delivers nothing. -/
theorem backlog_flush_delivers_once_witness :
    ((deliverUndelivered ⟨[⟨0, "zohaib", "bilal", "hi", 5, false⟩,
        ⟨1, "zohaib", "bilal", "yo", 3, false⟩,
        ⟨2, "bilal", "zohaib", "x", 1, false⟩], 3,
        [("bilal", ⟨"bilal", 1⟩)], [], []⟩ "bilal").2.filter OutLine.isMissed
      = [OutLine.missed 3 "zohaib" "yo", OutLine.missed 5 "zohaib" "hi"]) ∧
    (deliverUndelivered (deliverUndelivered ⟨[⟨0, "zohaib", "bilal", "hi", 5,
        false⟩, ⟨1, "zohaib", "bilal", "yo", 3, false⟩,
        ⟨2, "bilal", "zohaib", "x", 1, false⟩], 3,
        [("bilal", ⟨"bilal", 1⟩)], [], []⟩ "bilal").1 "bilal"
      = ((deliverUndelivered ⟨[⟨0, "zohaib", "bilal", "hi", 5, false⟩,
          ⟨1, "zohaib", "bilal", "yo", 3, false⟩,
          ⟨2, "bilal", "zohaib", "x", 1, false⟩], 3,
          [("bilal", ⟨"bilal", 1⟩)], [], []⟩ "bilal").1, [])) := by
  have h := (backlog_flush_delivers_once ⟨[⟨0, "zohaib", "bilal", "hi", 5,
    false⟩, ⟨1, "zohaib", "bilal", "yo", 3, false⟩,
    ⟨2, "bilal", "zohaib", "x", 1, false⟩], 3,
    [("bilal", ⟨"bilal", 1⟩)], [], []⟩ "bilal").2 (by decide)
  refine ⟨?_, h.2.2.2.2.2⟩
  rw [h.2.2.1]
  decide

/-! ### Claim C8: accepting a call generates one shared session id -/

theorem letterAt_mem (n : Nat) : letterAt n ∈ letters.toList := by
  rw [letterAt]
  have h : n % 62 < letters.toList.length := by
    have : letters.toList.length = 62 := by decide
    rw [this]
    exact Nat.mod_lt _ (by decide)
  rw [List.getD_eq_getElem letters.toList 'a' h]
  exact List.getElem_mem h

/-- C8: after `requestCall` by `requester` with the callee online,
`acceptCall` by the callee produces exactly four notifications: the callee
(media sender role) receives the send URL, the requester (viewer role) the
view URL; both URLs are built from the configured base and one shared
session id and differ only in the role path segment; the session id has
exactly 12 (hence at least 12) characters, all drawn from the 62-symbol
alphanumeric alphabet. -/
theorem call_accept_generates_session (s : ChatServer)
    (requester env : String) (rng : Nat → Nat) (cc rc : UserConn)
    (hc : alookup s.clients (peerOf requester) = some cc)
    (hr : alookup s.clients requester = some rc) :
    ((handleVideoAccept (handleVideoRequest s requester).1 (peerOf requester)
        env rng).2
      = [⟨cc.conn, "Video approved. Open this URL to share your camera:"⟩,
         ⟨cc.conn, senderURL (resolveBase env) (generateSID rng)⟩,
         ⟨rc.conn, "Open this URL to view the camera:"⟩,
         ⟨rc.conn, viewerURL (resolveBase env) (generateSID rng)⟩]) ∧
    (∀ b sid, senderURL b sid = b ++ "/v/" ++ "send" ++ "?sid=" ++ sid) ∧
    (∀ b sid, viewerURL b sid = b ++ "/v/" ++ "view" ++ "?sid=" ++ sid) ∧
    ((generateSID rng).length = 12) ∧
    (12 ≤ (generateSID rng).length) ∧
    (∀ ch ∈ (generateSID rng).toList, ch ∈ letters.toList) ∧
    (letters.toList.length = 62) ∧ letters.toList.Nodup := by
  have hlen : (generateSID rng).length = 12 := by
    show ((List.range 12).map (fun i => letterAt (rng i))).length = 12
    simp
  refine ⟨?_, ?_, ?_, hlen, le_of_eq hlen.symm, ?_, by decide, by decide⟩
  · simp [handleVideoRequest, handleVideoAccept, hc, hr, alookup_ainsert_self]
  · intro b sid
    show b ++ "/v/send?sid=" ++ sid = b ++ "/v/" ++ "send" ++ "?sid=" ++ sid
    rw [String.append_assoc (b ++ "/v/") "send" "?sid=",
      String.append_assoc b "/v/" ("send" ++ "?sid="),
      String.append_assoc b "/v/send?sid=" sid,
      String.append_assoc b ("/v/" ++ ("send" ++ "?sid=")) sid]
    exact congrArg (fun t => b ++ (t ++ sid))
      (by decide : ("/v/send?sid=" : String) = "/v/" ++ ("send" ++ "?sid="))
  · intro b sid
    show b ++ "/v/view?sid=" ++ sid = b ++ "/v/" ++ "view" ++ "?sid=" ++ sid
    rw [String.append_assoc (b ++ "/v/") "view" "?sid=",
      String.append_assoc b "/v/" ("view" ++ "?sid="),
      String.append_assoc b "/v/view?sid=" sid,
      String.append_assoc b ("/v/" ++ ("view" ++ "?sid=")) sid]
    exact congrArg (fun t => b ++ (t ++ sid))
      (by decide : ("/v/view?sid=" : String) = "/v/" ++ ("view" ++ "?sid="))
  · intro ch hch
    have hm : ch ∈ (List.range 12).map (fun i => letterAt (rng i)) := hch
    rcases List.mem_map.1 hm with ⟨i, _, rfl⟩
    exact letterAt_mem (rng i)

/-- Witness for C8: zohaib requests, bilal accepts; two join URLs sharing
one 12-character session id are sent, the send URL to bilal (the callee)
and the view URL to zohaib (the requester). -/
theorem call_accept_generates_session_witness :
    ((handleVideoAccept (handleVideoRequest ⟨[], 0,
        [("bilal", ⟨"bilal", 1⟩), ("zohaib", ⟨"zohaib", 2⟩)], [], []⟩
        "zohaib").1 "bilal" "" (fun i => i)).2
      = [⟨1, "Video approved. Open this URL to share your camera:"⟩,
         ⟨1, "http://127.0.0.1:5001/v/send?sid=abcdefghijkl"⟩,
         ⟨2, "Open this URL to view the camera:"⟩,
         ⟨2, "http://127.0.0.1:5001/v/view?sid=abcdefghijkl"⟩]) ∧
    ("abcdefghijkl" : String).length = 12 := by
  have h := call_accept_generates_session ⟨[], 0,
    [("bilal", ⟨"bilal", 1⟩), ("zohaib", ⟨"zohaib", 2⟩)], [], []⟩
    "zohaib" "" (fun i => i) ⟨"bilal", 1⟩ ⟨"zohaib", 2⟩ (by decide) (by decide)
  have h2 := h.1
  rw [show peerOf "zohaib" = "bilal" from by decide] at h2
  rw [h2]
  constructor
  · rfl
  · decide

end CliChat
